import Mathlib

/-!
Verification of the flower-classification API server
(`src/server/server_fastapi_image_model.py`).

The development shallowly embeds the request pipeline of the server:
decoding is abstracted as a parameter, PIL images become a structure with
8-bit bands, numpy arrays become shape-plus-entry tensors over `ℚ`
(modelling IEEE float32 values, which the pipeline only ever fills with
exactly representable small rationals of the form `k / 255`), real-valued
softmax runs over `ℝ`, Python exceptions become `Except`, and FastAPI's
`HTTPException` becomes an explicit structure.
-/

/-- Colour modes of a PIL image that the server may receive: true-colour
`RGB`, 8-bit grayscale `L`, true-colour with alpha `RGBA`, and paletted
`P`.  These are the representative convertible-to-RGB modes. -/
inductive PILMode where
  | RGB
  | L
  | RGBA
  | P
deriving DecidableEq

/-- A decoded PIL image: a mode, pixel dimensions, a band accessor
(`band y x c` is the 8-bit value of channel `c` at row `y`, column `x`;
channels beyond the mode's band count are junk), and a palette table used
only in mode `P`. -/
structure Img where
  mode : PILMode
  width : Nat
  height : Nat
  band : Nat → Nat → Nat → Fin 256
  palette : Fin 256 → Fin 3 → Fin 256

/-- Models PIL's `Image.convert("RGB")`: an `RGB` image is returned
unchanged (PIL returns an identical copy); `L` replicates the gray band
into all three channels; `RGBA` drops the alpha band; `P` looks every
pixel index up in the palette. -/
def convertRGB (img : Img) : Img :=
  match img.mode with
  | .RGB => img
  | .L => { img with mode := .RGB, band := fun y x _ => img.band y x 0 }
  | .RGBA => { img with mode := .RGB }
  | .P =>
      { img with
        mode := .RGB,
        band := fun y x c =>
          if h : c < 3 then img.palette (img.band y x 0) ⟨c, h⟩
          else img.band y x c }

/-- Models PIL's `Image.resize(target_size)`: a deterministic resampling
onto the target grid producing 8-bit bands.  The concrete sampling rule
(here coordinate scaling) stands in for PIL's fixed filter; every property
proved below depends only on its determinism, the output dimensions, and
the 8-bit channel range, all of which PIL guarantees.  `target` is
`(width, height)` in PIL order. -/
def resize (img : Img) (target : Nat × Nat) : Img :=
  { img with
    width := target.1,
    height := target.2,
    band := fun y x c =>
      img.band (y * img.height / target.2) (x * img.width / target.1) c }

/-- An n-dimensional numpy array over rational entries: a shape together
with an entry function indexed by a list of coordinates (out-of-shape
index lists read as `0`). -/
structure NDTensor where
  shape : List Nat
  entry : List Nat → ℚ

/-- Models `np.array(image, dtype=np.float32)` on a 3-channel image:
shape `[height, width, 3]`, each entry the 8-bit band value. -/
def npArrayOfImg (img : Img) : NDTensor :=
  { shape := [img.height, img.width, 3],
    entry := fun idx =>
      match idx with
      | [y, x, c] => ((img.band y x c).val : ℚ)
      | _ => 0 }

/-- Models numpy's broadcast scalar division `a / k`. -/
def tensorDiv (t : NDTensor) (k : ℚ) : NDTensor :=
  { t with entry := fun idx => t.entry idx / k }

/-- Models `np.expand_dims(a, axis=0)`: prepend a batch axis of size 1. -/
def expand_dims0 (t : NDTensor) : NDTensor :=
  { shape := 1 :: t.shape, entry := fun idx => t.entry idx.tail }

/-- Constant `IMAGE_SIZE = (224, 224)` from the server module. -/
def IMAGE_SIZE : Nat × Nat := (224, 224)

/-- Constant `NORMALIZATION_FACTOR = 255.0` from the server module. -/
def NORMALIZATION_FACTOR : ℚ := 255

/-- The server's `preprocess_image`: convert to RGB, resize to
`target_size` (the server always passes the default `IMAGE_SIZE`),
convert to a float array divided by `NORMALIZATION_FACTOR`, and prepend
the batch dimension.  The source wraps exceptions into `ValueError`, but
each step is total here, so the function is total. -/
def preprocess_image (image : Img) (target_size : Nat × Nat) : NDTensor :=
  let image1 := convertRGB image
  let image2 := resize image1 target_size
  let img_array := tensorDiv (npArrayOfImg image2) NORMALIZATION_FACTOR
  expand_dims0 img_array

/-- An 8-bit value divided by the normalization factor lies in `[0, 1]`. -/
theorem byte_div_mem_unit (v : Fin 256) :
    0 ≤ (v.val : ℚ) / NORMALIZATION_FACTOR ∧
      (v.val : ℚ) / NORMALIZATION_FACTOR ≤ 1 := by
  have h255 : (0 : ℚ) < NORMALIZATION_FACTOR := by norm_num [NORMALIZATION_FACTOR]
  constructor
  · exact div_nonneg (by positivity) h255.le
  · rw [div_le_one h255]
    have hv : (v.val : ℚ) ≤ 255 := by exact_mod_cast Nat.le_of_lt_succ v.isLt
    simpa [NORMALIZATION_FACTOR] using hv

/-- Models `tf.nn.softmax` on a score vector over the reals:
`p_i = exp(s_i) / sum_j exp(s_j)`. -/
noncomputable def softmax (s : List ℝ) : List ℝ :=
  s.map (fun x => Real.exp x / (s.map Real.exp).sum)

/-- Maximum of a score vector (`0` on the empty vector). -/
noncomputable def listMax : List ℝ → ℝ
  | [] => 0
  | x :: xs => xs.foldl max x

/-- The numerically stable softmax reformulation: subtract the maximum
score before exponentiating. -/
noncomputable def softmaxStable (s : List ℝ) : List ℝ :=
  s.map (fun x =>
    Real.exp (x - listMax s) /
      (s.map (fun y => Real.exp (y - listMax s))).sum)

/-- The fixed ordered label list `FLOWER_CLASSES` of the server module. -/
def FLOWER_CLASSES : List String :=
  ["dandelion", "daisy", "tulips", "sunflowers", "roses"]

/-- A keyed model result: the dictionary of named output tensors returned
by calling the Keras model, each output a batch of score rows.  Python
dictionaries preserve insertion order and have unique keys; an association
list models both. -/
abbrev KeyedResult := List (String × List (List ℝ))

/-- Models FastAPI's `HTTPException`: a status code and a detail
message. -/
structure HTTPException where
  status : Nat
  detail : String
deriving DecidableEq

/-- Models Python's `str()` on a starlette/FastAPI `HTTPException`,
which renders as `"<status_code>: <detail>"`. -/
def httpExcToString (e : HTTPException) : String :=
  toString e.status ++ ": " ++ e.detail

/-- The detail message raised on model-invocation failure at line 134 of
the server. -/
def INFER_FAIL : String := "모델 예측에 실패했습니다."

/-- Python dictionary lookup `d[k]` on an association list: the value at
the first matching key, `none` when absent (a `KeyError`). -/
def dictGet {α : Type} (d : List (String × α)) (k : String) : Option α :=
  match d with
  | [] => none
  | (k', v) :: rest => if k' = k then some v else dictGet rest k

/-- Lines 125–126 of the server: `output_key = list(predictions.keys())[0]`
then `outputs = predictions[output_key]`.  `none` exactly when the keys
list is empty and the `[0]` raises `IndexError`. -/
def selectOutput {α : Type} (predictions : List (String × α)) : Option α :=
  match (predictions.map Prod.fst).head? with
  | none => none
  | some output_key => dictGet predictions output_key

/-- The inner `try` of `predict_image` (lines 120–135) given the keyed
result of a successful model call: select the first output, take its
first batch row (`outputs[0]`), and apply softmax; any failure (empty
keys, empty batch) raises `HTTPException(500, INFER_FAIL)` exactly as the
`except` at line 131 does. -/
noncomputable def resultToProbs (predictions : KeyedResult) :
    Except HTTPException (List ℝ) :=
  match selectOutput predictions with
  | none => .error ⟨500, INFER_FAIL⟩
  | some outputs =>
    match outputs.head? with
    | none => .error ⟨500, INFER_FAIL⟩
    | some row => .ok (softmax row)

/-- The loaded Keras model, reduced to its calling interface: a tensor in,
either a keyed result out or a raw invocation failure (an exception,
carried as its message). -/
structure TFModel where
  call : NDTensor → Except String KeyedResult

/-- The server's `predict_image`: preprocess, call the model inside the
inner `try` (any invocation failure or key/index error becomes
`HTTPException(500, INFER_FAIL)`), zip the fixed label list with the
probabilities.  The raised inner `HTTPException` is itself an `Exception`,
so the outer `except` at line 142 catches it and re-raises
`HTTPException(500, "예측 실패: " + str(e))`. -/
noncomputable def predict_image (model : TFModel) (image : Img) :
    Except HTTPException (List (String × ℝ)) :=
  let preprocessed_img := preprocess_image image IMAGE_SIZE
  let inner : Except HTTPException (List ℝ) :=
    match model.call preprocessed_img with
    | .error _ => .error ⟨500, INFER_FAIL⟩
    | .ok predictions => resultToProbs predictions
  match inner with
  | .error e => .error ⟨500, "예측 실패: " ++ httpExcToString e⟩
  | .ok probabilities => .ok (FLOWER_CLASSES.zip probabilities)

/-- The server's filesystem and Keras runtime as seen by `load_model`:
whether a path exists, and what `tf.keras.models.load_model` yields
there (a model, or a load failure carried as its message). -/
structure FileSystem where
  pathExists : String → Bool
  loadKeras : String → Except String TFModel

/-- The model artifact path `'./base_model.keras'` of `load_model`
(`os.path.expanduser` is the identity on it: no `~`). -/
def MODEL_FILE : String := "./base_model.keras"

/-- The server's `load_model`: raise `FileNotFoundError` when the
artifact path does not exist, otherwise load it. -/
def load_model (fs : FileSystem) : Except String TFModel :=
  let model_path := MODEL_FILE
  if fs.pathExists model_path = false then
    .error ("Model file not found: " ++ model_path)
  else
    fs.loadKeras model_path

/-- The state of a process that is serving requests: it holds the loaded
module-level `model`.  Handlers take it as an argument, so a request can
only run in a process whose module initialization succeeded. -/
structure ServerState where
  model : TFModel

/-- Module initialization: line 150 (`model = load_model()`) runs once
at import time, before uvicorn can dispatch any request; a raised error
aborts the import and no `ServerState` ever exists. -/
def initModule (fs : FileSystem) : Except String ServerState :=
  match load_model fs with
  | .error e => .error e
  | .ok m => .ok ⟨m⟩

/-- The JSON body returned by a successful `/predict` request. -/
structure PredictResponse where
  predictions : List (String × ℝ)

/-- The `/predict` handler `predict_flower`: read the upload bytes, decode
them (`Image.open`, abstracted as the `imageOpen` parameter since PIL's
codecs are external) and convert to RGB, run `predict_image`, and wrap
everything in a `try` whose `except` maps any exception `e` — a decode
failure or the `HTTPException` raised by `predict_image` — to
`HTTPException(500, str(e))`. -/
noncomputable def predict_flower (st : ServerState)
    (imageOpen : List Nat → Except String Img) (contents : List Nat) :
    Except HTTPException PredictResponse :=
  match imageOpen contents with
  | .error e => .error ⟨500, e⟩
  | .ok opened =>
    let image := convertRGB opened
    match predict_image st.model image with
    | .error exc => .error ⟨500, httpExcToString exc⟩
    | .ok result => .ok ⟨result⟩

/-- A concrete 640 × 480 RGB image with every channel equal to 128,
used to instantiate universally quantified results. -/
def constImg : Img :=
  { mode := .RGB,
    width := 640,
    height := 480,
    band := fun _ _ _ => ⟨128, by omega⟩,
    palette := fun _ _ => ⟨0, by omega⟩ }

theorem convertRGB_mode (img : Img) : (convertRGB img).mode = .RGB := by
  rcases img with ⟨m, w, h, b, p⟩
  cases m <;> rfl

theorem convertRGB_of_RGB (img : Img) (h : img.mode = .RGB) :
    convertRGB img = img := by
  rcases img with ⟨m, w, hh, b, p⟩
  cases m
  · rfl
  · exact PILMode.noConfusion h
  · exact PILMode.noConfusion h
  · exact PILMode.noConfusion h

theorem convertRGB_idem (img : Img) :
    convertRGB (convertRGB img) = convertRGB img :=
  convertRGB_of_RGB _ (convertRGB_mode img)

/-- C1: for every canonical image, `preprocess_image` returns a tensor of
shape exactly `(1, 224, 224, 3)` (float32 values modelled over `ℚ`),
obtained by RGB conversion, resize, division of every 8-bit intensity by
255.0, and batch-dimension prepending, so every element lies in
`[0.0, 1.0]`. -/
theorem C1_preprocess_shape_and_range (image : Img) :
    (preprocess_image image IMAGE_SIZE).shape = [1, 224, 224, 3] ∧
    ∀ b y x c, b < 1 → y < 224 → x < 224 → c < 3 →
      0 ≤ (preprocess_image image IMAGE_SIZE).entry [b, y, x, c] ∧
        (preprocess_image image IMAGE_SIZE).entry [b, y, x, c] ≤ 1 := by
  refine ⟨rfl, ?_⟩
  intro b y x c _ _ _ _
  exact byte_div_mem_unit ((resize (convertRGB image) IMAGE_SIZE).band y x c)

theorem C1_preprocess_shape_and_range_witness :
    ((0 : Nat) < 1 ∧ (0 : Nat) < 224 ∧ (0 : Nat) < 3) ∧
    (preprocess_image constImg IMAGE_SIZE).shape = [1, 224, 224, 3] ∧
    (0 ≤ (preprocess_image constImg IMAGE_SIZE).entry [0, 0, 0, 0] ∧
      (preprocess_image constImg IMAGE_SIZE).entry [0, 0, 0, 0] ≤ 1) :=
  ⟨⟨by decide, by decide, by decide⟩,
    (C1_preprocess_shape_and_range constImg).1,
    (C1_preprocess_shape_and_range constImg).2 0 0 0 0
      (by decide) (by decide) (by decide) (by decide)⟩

/-- C6: preprocessing is deterministic — two runs of `preprocess_image`
on the same image produce identical output tensors; the embedding is a
pure function of the image, with no hidden state. -/
theorem C6_preprocess_deterministic (image : Img) (t1 t2 : NDTensor)
    (h1 : t1 = preprocess_image image IMAGE_SIZE)
    (h2 : t2 = preprocess_image image IMAGE_SIZE) : t1 = t2 :=
  h1.trans h2.symm

theorem C6_preprocess_deterministic_witness :
    preprocess_image constImg IMAGE_SIZE = preprocess_image constImg IMAGE_SIZE :=
  C6_preprocess_deterministic constImg _ _ rfl rfl

/-- C10: RGB conversion is idempotent in the pipeline — `preprocess_image`
applied to the RGB-converted image (as the `/predict` handler produces at
line 180) equals `preprocess_image` applied to the original image; the
redundant defensive conversion at line 83 never changes the tensor. -/
theorem C10_convert_idempotent (image : Img) :
    preprocess_image (convertRGB image) IMAGE_SIZE
      = preprocess_image image IMAGE_SIZE := by
  unfold preprocess_image
  rw [convertRGB_idem]

theorem list_sum_map_div (l : List ℝ) (f : ℝ → ℝ) (c : ℝ) :
    (l.map (fun x => f x / c)).sum = (l.map f).sum / c := by
  induction l with
  | nil => simp
  | cons a t ih => simp [ih, add_div]

theorem exp_sum_pos (s : List ℝ) (hs : s ≠ []) :
    0 < (s.map Real.exp).sum := by
  apply List.sum_pos
  · intro a ha
    rcases List.mem_map.mp ha with ⟨x, -, rfl⟩
    exact Real.exp_pos x
  · simpa using hs

/-- C2: for every raw score vector of length 5, the softmax transform
applied by `predict_image` yields probabilities each in `[0, 1]` summing
to 1 within `1e-6` (in fact exactly), and the result is unchanged by the
numerically stable reformulation that subtracts the maximum score before
exponentiating. -/
theorem C2_softmax_props (s : List ℝ) (h5 : s.length = 5) :
    (∀ p ∈ softmax s, 0 ≤ p ∧ p ≤ 1) ∧
    |(softmax s).sum - 1| ≤ 1 / 1000000 ∧
    softmaxStable s = softmax s := by
  have hne : s ≠ [] := by
    intro h
    rw [h] at h5
    simp at h5
  have hS := exp_sum_pos s hne
  have hSne : (s.map Real.exp).sum ≠ 0 := ne_of_gt hS
  refine ⟨?_, ?_, ?_⟩
  · intro p hp
    rcases List.mem_map.mp hp with ⟨x, hx, rfl⟩
    refine ⟨div_nonneg (Real.exp_pos x).le hS.le, ?_⟩
    rw [div_le_one hS]
    exact List.single_le_sum
      (fun y hy => by
        rcases List.mem_map.mp hy with ⟨z, -, rfl⟩
        exact (Real.exp_pos z).le)
      _ (List.mem_map_of_mem Real.exp hx)
  · have hsum : (softmax s).sum = 1 := by
      unfold softmax
      rw [list_sum_map_div, div_self hSne]
    rw [hsum]
    norm_num
  · unfold softmaxStable softmax
    apply List.map_congr_left
    intro x _
    have hm : Real.exp (listMax s) ≠ 0 := Real.exp_ne_zero _
    have hT : (s.map (fun y => Real.exp (y - listMax s))).sum
        = (s.map Real.exp).sum / Real.exp (listMax s) := by
      rw [← list_sum_map_div]
      congr 1
      apply List.map_congr_left
      intro y _
      exact Real.exp_sub y (listMax s)
    rw [Real.exp_sub, hT, div_div_div_eq, mul_comm (Real.exp x) (Real.exp (listMax s)),
      mul_div_mul_left _ _ hm]

theorem C2_softmax_props_witness :
    ([(0 : ℝ), 0, 0, 0, 0].length = 5) ∧
    ((∀ p ∈ softmax [(0 : ℝ), 0, 0, 0, 0], 0 ≤ p ∧ p ≤ 1) ∧
      |(softmax [(0 : ℝ), 0, 0, 0, 0]).sum - 1| ≤ 1 / 1000000 ∧
      softmaxStable [(0 : ℝ), 0, 0, 0, 0] = softmax [(0 : ℝ), 0, 0, 0, 0]) :=
  ⟨rfl, C2_softmax_props [(0 : ℝ), 0, 0, 0, 0] rfl⟩

/-- A model stub whose single output holds an empty score row. -/
def modelEmptyScores : TFModel :=
  ⟨fun _ => .ok [("output_0", [([] : List ℝ)])]⟩

/-- A model stub whose single output holds one length-5 score row. -/
def modelFiveScores : TFModel :=
  ⟨fun _ => .ok [("output_0", [[(0 : ℝ), 0, 0, 0, 0]])]⟩

/-- C3 counterexample: with a model whose score vector is empty, the
mapping returned by `predict_image` is empty, so without a length
precondition the mapping does not contain the 5 fixed class names —
`zip` truncates to the shorter list. -/
theorem C3_counterexample_short_scores :
    predict_image modelEmptyScores constImg = .ok [] ∧
    ¬ (List.map Prod.fst ([] : List (String × ℝ)) = FLOWER_CLASSES) := by
  constructor
  · rfl
  · decide

/-- C3 (amended): for every raw score vector of length at least 5 that the
model returns, the mapping returned by `predict_image` contains exactly
the 5 fixed class names, produced by zipping the probability vector in
order with the fixed label list, regardless of which class scored
highest. -/
theorem C3_label_mapping_complete (model : TFModel) (image : Img)
    (key : String) (row : List ℝ) (batchRest : List (List ℝ))
    (rest : KeyedResult)
    (hcall : model.call (preprocess_image image IMAGE_SIZE)
      = .ok ((key, row :: batchRest) :: rest))
    (hlen : 5 ≤ row.length) :
    predict_image model image = .ok (FLOWER_CLASSES.zip (softmax row)) ∧
    (FLOWER_CLASSES.zip (softmax row)).map Prod.fst = FLOWER_CLASSES := by
  constructor
  · simp [predict_image, hcall, resultToProbs, selectOutput, dictGet]
  · apply List.map_fst_zip
    have hsl : (softmax row).length = row.length := by simp [softmax]
    rw [hsl]
    simpa [FLOWER_CLASSES] using hlen

theorem C3_label_mapping_complete_witness :
    (modelFiveScores.call (preprocess_image constImg IMAGE_SIZE)
        = .ok [("output_0", [[(0 : ℝ), 0, 0, 0, 0]])] ∧
      5 ≤ [(0 : ℝ), 0, 0, 0, 0].length) ∧
    (predict_image modelFiveScores constImg
        = .ok (FLOWER_CLASSES.zip (softmax [(0 : ℝ), 0, 0, 0, 0])) ∧
      (FLOWER_CLASSES.zip (softmax [(0 : ℝ), 0, 0, 0, 0])).map Prod.fst
        = FLOWER_CLASSES) :=
  ⟨⟨rfl, by decide⟩,
    C3_label_mapping_complete modelFiveScores constImg "output_0" _ _ _
      rfl (by decide)⟩

/-- C5: the Predictor selects exactly one output deterministically — the
first key of the keyed result — and the probability computation depends
only on that selected output, so two invocations on the same model result
yield the same outcome. -/
theorem C5_first_output_selection :
    (∀ (k : String) (v : List (List ℝ)) (rest : KeyedResult),
        selectOutput ((k, v) :: rest) = some v) ∧
    (∀ r r' : KeyedResult, selectOutput r = selectOutput r' →
        resultToProbs r = resultToProbs r') := by
  constructor
  · intro k v rest
    simp [selectOutput, dictGet]
  · intro r r' h
    unfold resultToProbs
    rw [h]

theorem C5_first_output_selection_witness :
    selectOutput [("dense_2", [[(1 : ℝ), 2, 3, 4, 5]])]
        = some [[(1 : ℝ), 2, 3, 4, 5]] ∧
    resultToProbs [("dense_2", [[(1 : ℝ), 2, 3, 4, 5]])]
        = resultToProbs [("dense_2", [[(1 : ℝ), 2, 3, 4, 5]])] :=
  ⟨C5_first_output_selection.1 "dense_2" _ _,
    C5_first_output_selection.2 _ _ rfl⟩

/-- C9: for every probability vector of length at least 5, the mapping
built at line 138 (`dict(zip(FLOWER_CLASSES, probabilities))`) enumerates
its keys in exactly the fixed insertion order dandelion, daisy, tulips,
sunflowers, roses. -/
theorem C9_key_enumeration_order (probs : List ℝ) (h : 5 ≤ probs.length) :
    (FLOWER_CLASSES.zip probs).map Prod.fst
      = ["dandelion", "daisy", "tulips", "sunflowers", "roses"] := by
  have hlen : FLOWER_CLASSES.length ≤ probs.length := by
    simpa [FLOWER_CLASSES] using h
  rw [List.map_fst_zip FLOWER_CLASSES probs hlen]
  rfl

theorem C9_key_enumeration_order_witness :
    5 ≤ [(0 : ℝ), 1, 2, 3, 4].length ∧
    (FLOWER_CLASSES.zip [(0 : ℝ), 1, 2, 3, 4]).map Prod.fst
      = ["dandelion", "daisy", "tulips", "sunflowers", "roses"] :=
  ⟨by decide, C9_key_enumeration_order [(0 : ℝ), 1, 2, 3, 4] (by decide)⟩

/-- A server state holding a stub model, for instantiating handler
results. -/
def st0 : ServerState := ⟨⟨fun _ => .error "stub"⟩⟩

/-- A decoder that rejects every byte payload, as PIL does on
unrecognizable bytes. -/
def imageOpenFail : List Nat → Except String Img :=
  fun _ => .error "cannot identify image file"

/-- A model stub whose invocation always raises an internal numeric
error. -/
def modelInvokeFails : TFModel := ⟨fun _ => .error "numeric fault"⟩

/-- C4: for every upload whose bytes are not a recognizable image, the
`/predict` handler returns the uniform failure response — HTTP 500 with a
detail message — and, being a total function into `Except`, neither
crashes the serving process nor returns any (partial) probability
mapping. -/
theorem C4_decode_failure_uniform (st : ServerState)
    (imageOpen : List Nat → Except String Img) (contents : List Nat)
    (e : String) (hdec : imageOpen contents = .error e) :
    predict_flower st imageOpen contents = .error ⟨500, e⟩ := by
  unfold predict_flower
  rw [hdec]

theorem C4_decode_failure_uniform_witness :
    imageOpenFail [] = .error "cannot identify image file" ∧
    predict_flower st0 imageOpenFail []
      = .error ⟨500, "cannot identify image file"⟩ :=
  ⟨rfl, C4_decode_failure_uniform st0 imageOpenFail [] _ rfl⟩

/-- C7: if the model artifact is missing or malformed at startup,
`load_model` raises (`FileNotFoundError` or the load failure), module
initialization aborts, and every serving state arises from a successful
load — the process never serves without a loaded model. -/
theorem C7_model_load_fatal (fs : FileSystem) :
    (fs.pathExists MODEL_FILE = false →
      initModule fs = .error ("Model file not found: " ++ MODEL_FILE)) ∧
    (∀ e, fs.loadKeras MODEL_FILE = .error e →
      initModule fs = .error e ∨
        initModule fs = .error ("Model file not found: " ++ MODEL_FILE)) ∧
    (∀ st, initModule fs = .ok st → load_model fs = .ok st.model) := by
  refine ⟨?_, ?_, ?_⟩
  · intro h
    simp [initModule, load_model, h]
  · intro e he
    by_cases h : fs.pathExists MODEL_FILE = false
    · right
      simp [initModule, load_model, h]
    · left
      simp [initModule, load_model, h, he]
  · intro st hst
    unfold initModule at hst
    cases hload : load_model fs with
    | error e =>
      rw [hload] at hst
      exact absurd hst (by simp)
    | ok m =>
      rw [hload] at hst
      injection hst with h2
      rw [← h2]

theorem C7_model_load_fatal_witness :
    FileSystem.pathExists ⟨fun _ => false, fun _ => .error "bad artifact"⟩
        MODEL_FILE = false ∧
    initModule ⟨fun _ => false, fun _ => .error "bad artifact"⟩
      = .error ("Model file not found: " ++ MODEL_FILE) :=
  ⟨rfl, (C7_model_load_fatal ⟨fun _ => false, fun _ => .error "bad artifact"⟩).1 rfl⟩

/-- C8: for every model-invocation failure — a raw invocation error or a
result with no keys to address — `predict_image` surfaces a wrapped
HTTP 500 failure (the inner `HTTPException(500, INFER_FAIL)` re-wrapped
by the outer handler), never the raw exception. -/
theorem C8_invocation_failure_wrapped (model : TFModel) (image : Img)
    (hfail : (∃ e, model.call (preprocess_image image IMAGE_SIZE) = .error e) ∨
      model.call (preprocess_image image IMAGE_SIZE) = .ok []) :
    predict_image model image
      = .error ⟨500, "예측 실패: " ++ httpExcToString ⟨500, INFER_FAIL⟩⟩ := by
  rcases hfail with ⟨e, he⟩ | hempty
  · simp [predict_image, he]
  · simp [predict_image, hempty, resultToProbs, selectOutput]

theorem C8_invocation_failure_wrapped_witness :
    (∃ e, modelInvokeFails.call (preprocess_image constImg IMAGE_SIZE)
        = .error e) ∧
    predict_image modelInvokeFails constImg
      = .error ⟨500, "예측 실패: " ++ httpExcToString ⟨500, INFER_FAIL⟩⟩ :=
  ⟨⟨"numeric fault", rfl⟩,
    C8_invocation_failure_wrapped modelInvokeFails constImg
      (Or.inl ⟨"numeric fault", rfl⟩)⟩
